import Mathlib

/-!
Shallow embedding of `sync_working_files_to_notion.py`, a one-directional
sync pipeline: it reads rows from a spreadsheet after a persisted watermark,
creates one record per valid row in a target content store, and rewrites the
watermark file once after the whole batch.

The external services are modelled as oracles:
* the drive export service is a function `Drive : String → Option Bytes`
  (`none` models the service raising, which the code swallows);
* the spreadsheet fetcher's result is the `rows` argument of `main`;
* the content store records the create requests issued (the code never reads
  a response beyond success/failure).

Effects are made explicit: a run result carries the list of create requests
issued, the export requests issued, the watermark-file writes performed, the
final file content, and the printed summary line.
-/

namespace Sync

/-- Raw binary content returned by a PDF export (never inspected by the
program, carried opaquely as a byte list). -/
abbrev Bytes := List Nat

/-- Oracle for `drive_service.files().export_media(...).execute()`: maps a
file id to the exported bytes, or `none` when the service raises (the code
catches any exception and returns `None`). -/
abbrev Drive := String → Option Bytes

/-- Whitespace characters stripped by Python's `str.strip()` / `int()`
(modelled for the common ASCII whitespace set). -/
def isPySpace (c : Char) : Bool :=
  c.toNat = 32 || c.toNat = 9 || c.toNat = 10 || c.toNat = 13 ||
  c.toNat = 11 || c.toNat = 12

/-- ASCII decimal digit, as accepted by Python's `int()` for ASCII input. -/
def isDigitChar (c : Char) : Bool :=
  48 ≤ c.toNat && c.toNat ≤ 57

/-- Python `str.strip()` on a character list: drop whitespace from both
ends. -/
def stripChars (cs : List Char) : List Char :=
  ((cs.dropWhile isPySpace).reverse.dropWhile isPySpace).reverse

/-- Continuation of Python's `int()` digit grammar after the first digit:
digits optionally separated by single underscores (`1_000` parses, `1__0`
and a trailing `_` do not). -/
def digitsRest : List Char → Bool
  | [] => true
  | c :: rest =>
    if c = '_' then
      match rest with
      | [] => false
      | c2 :: rest2 => isDigitChar c2 && digitsRest rest2
    else isDigitChar c && digitsRest rest

/-- Python `int()` digit-run grammar: nonempty, starts with a digit, and
continues per `digitsRest`. -/
def digitsOk : List Char → Bool
  | [] => false
  | c :: rest => isDigitChar c && digitsRest rest

/-- Numeric value of a digit run, ignoring the underscore separators. -/
def digitsVal (cs : List Char) : Nat :=
  cs.foldl (fun acc c => if c = '_' then acc else acc * 10 + (c.toNat - 48)) 0

/-- Python's `int(s)` on a string given as a character list (modelled for
ASCII content): strip whitespace, allow one optional sign, then require a
valid digit run; `none` models `ValueError`. -/
def pythonInt (cs : List Char) : Option Int :=
  match stripChars cs with
  | [] => none
  | c :: rest =>
    if c = '+' then
      if digitsOk rest then some (digitsVal rest : Int) else none
    else if c = '-' then
      if digitsOk rest then some (-(digitsVal rest : Int)) else none
    else if digitsOk (c :: rest) then some (digitsVal (c :: rest) : Int)
    else none

/-- `get_last_synced_row()`: the state file is `none` when absent, otherwise
`some` its text content. Returns 1 when the file is absent, otherwise
`int(content.strip())`, falling back to 1 on `ValueError`. -/
def get_last_synced_row (stateFile : Option String) : Int :=
  match stateFile with
  | none => 1
  | some s =>
    match pythonInt (stripChars s.data) with
    | some n => n
    | none => 1

/-- `update_last_synced_row(row_index)`: the text written to the state file,
namely `str(row_index)`. -/
def update_last_synced_row (row_index : Int) : String :=
  toString row_index

/-- Python's `file_url.split("/")` for the one-character separator `/`:
split the character sequence on `'/'`, keeping empty segments, exactly as
`str.split` with an explicit separator does. -/
def splitSlash (file_url : String) : List String :=
  (file_url.data.splitOn '/').map (fun cs => String.mk cs)

/-- First segment following the first segment equal to `"d"`, if any.
This is `parts.index("d") + 1` followed by `parts[idx]`, with Python's
`ValueError` (no `"d"`) and `IndexError` (no following segment) both mapped
to `none`. -/
def firstAfterD : List String → Option String
  | [] => none
  | p :: rest => if p = "d" then rest.head? else firstAfterD rest

/-- File-id extraction in `export_file_to_pdf`: split the URL on `/` and
take the segment after the first `"d"`. The source's `drive.google.com`
branch computes exactly the same index as its `else` branch, so a single
definition covers both. -/
def extractFileId (file_url : String) : Option String :=
  firstAfterD (splitSlash file_url)

/-- `export_file_to_pdf(drive_service, file_url)`: first component is the
returned bytes (`none` when the id cannot be parsed or the service raises),
second component is the list of export requests issued to the service. -/
def export_file_to_pdf (drive : Drive) (file_url : String) :
    Option Bytes × List String :=
  match extractFileId file_url with
  | none => (none, [])
  | some file_id => (drive file_id, [file_id])

/-- Typed property payloads of the target store, as built by `main`:
title text, select option, rich text, date string, URL string. -/
inductive PropValue : Type
  | title (content : String)
  | select (nm : String)
  | richText (content : String)
  | date (start : String)
  | url (u : String)
deriving DecidableEq, Repr

/-- One `notion.pages.create` request: parent database id, the properties
mapping (in insertion order), and the block children (always empty here). -/
structure CreateRequest : Type where
  database_id : String
  properties : List (String × PropValue)
  children : List Unit
deriving DecidableEq, Repr

/-- `notion_create_entry(notion, database_id, properties, file_bytes,
file_name)`: builds the create request. The source sets `children = []` and
never uses `file_bytes`/`file_name` (binary upload is unimplemented). -/
def notion_create_entry (database_id : String)
    (properties : List (String × PropValue))
    (file_bytes : Option Bytes) (file_name : Option String) : CreateRequest :=
  { database_id := database_id, properties := properties, children := [] }

/-- The properties dict built in `main` for one row, in insertion order:
`File Name` always; `Category`, `Remark`, `File Date` when the field is
non-empty; `Link` when a file URL was resolved. -/
def buildProperties (description category remark file_date : String)
    (file_url_for_notion : Option String) : List (String × PropValue) :=
  [("File Name", PropValue.title description)]
  ++ (if category ≠ "" then [("Category", PropValue.select category)] else [])
  ++ (if remark ≠ "" then [("Remark", PropValue.richText remark)] else [])
  ++ (if file_date ≠ "" then [("File Date", PropValue.date file_date)] else [])
  ++ (match file_url_for_notion with
      | some u => [("Link", PropValue.url u)]
      | none => [])

/-- Python's `s.startswith(p)`: the characters of `p` are a prefix of the
characters of `s`. -/
def pyStartswith (s p : String) : Bool :=
  p.data.isPrefixOf s.data

/-- One iteration of `main`'s row loop, minus the counter bookkeeping:
extract fields by fixed column offset (missing cells default to `""`), skip
when `description` is empty, otherwise resolve the file source and build the
create request. Returns the optional create request and the export requests
issued while processing this row. -/
def processRow (drive : Drive) (database_id : String) (row : List String) :
    Option CreateRequest × List String :=
  let description := row.getD 1 ""
  let link := row.getD 2 ""
  let pdf_link := row.getD 3 ""
  let category := row.getD 4 ""
  let remark := row.getD 5 ""
  let file_date := row.getD 6 ""
  if description = "" then (none, [])
  else
    let fd : Option Bytes × Option String × Option String × List String :=
      if pdf_link ≠ "" then (none, none, some pdf_link, [])
      else if link ≠ "" && pyStartswith link "http" then
        match export_file_to_pdf drive link with
        | (some dat, es) => (some dat, some (description ++ ".pdf"), none, es)
        | (none, es) => (none, none, none, es)
      else (none, none, none, [])
    match fd with
    | (file_data, file_name, file_url_for_notion, es) =>
      let properties :=
        buildProperties description category remark file_date file_url_for_notion
      (some (notion_create_entry database_id properties file_data file_name), es)

/-- Observable outcome of one run of `main`: whether a create call raised
(aborting the run), the create requests successfully issued, the export
requests issued, the state-file writes performed, the final state-file
content, and the printed line (if the run reached a print). -/
structure RunResult : Type where
  aborted : Bool
  requests : List CreateRequest
  exports : List String
  writes : List String
  finalFile : Option String
  printed : Option String
deriving DecidableEq, Repr

/-- The row loop of `main` plus the post-loop watermark write and summary
print. `failAt k` tells whether the k-th create call raises (modelling a
writer failure); on such a failure the exception propagates, so the run
aborts with no state-file write. On completion the watermark is written
once, with the final `current_row`. -/
def syncLoop (failAt : Nat → Bool) (drive : Drive) (database_id : String)
    (stateFile : Option String) :
    List (List String) → Int → Nat → List CreateRequest → List String →
    RunResult
  | [], current_row, synced_count, reqs, exps =>
    { aborted := false, requests := reqs, exports := exps,
      writes := [update_last_synced_row current_row],
      finalFile := some (update_last_synced_row current_row),
      printed :=
        some s!"Synced {synced_count} new records. Last synced row: {current_row}." }
  | row :: rest, current_row, synced_count, reqs, exps =>
    match processRow drive database_id row with
    | (none, es) =>
      syncLoop failAt drive database_id stateFile rest (current_row + 1)
        synced_count reqs (exps ++ es)
    | (some req, es) =>
      if failAt reqs.length then
        { aborted := true, requests := reqs, exports := exps ++ es,
          writes := [], finalFile := stateFile, printed := none }
      else
        syncLoop failAt drive database_id stateFile rest (current_row + 1)
          (synced_count + 1) (reqs ++ [req]) (exps ++ es)

/-- `main()`, after configuration and service construction: read the
watermark, receive the fetched rows, return early when there are none,
otherwise run the row loop starting the counter at the watermark. -/
def main (failAt : Nat → Bool) (drive : Drive) (database_id : String)
    (stateFile : Option String) (rows : List (List String)) : RunResult :=
  let last_row := get_last_synced_row stateFile
  if rows.isEmpty then
    { aborted := false, requests := [], exports := [], writes := [],
      finalFile := stateFile, printed := some "No new rows to sync." }
  else
    syncLoop failAt drive database_id stateFile rows last_row 0 [] []

/-! ### Helper lemmas -/

theorem dropWhile_eq_self_of_all {p : Char → Bool} (l : List Char)
    (h : ∀ c ∈ l, p c = false) : l.dropWhile p = l := by
  cases l with
  | nil => rfl
  | cons a t =>
    rw [List.dropWhile_cons, h a (List.mem_cons_self a t)]
    simp

theorem stripChars_eq_self (cs : List Char)
    (h : ∀ c ∈ cs, isPySpace c = false) : stripChars cs = cs := by
  unfold stripChars
  rw [dropWhile_eq_self_of_all cs h,
    dropWhile_eq_self_of_all cs.reverse (fun c hc => h c (List.mem_reverse.mp hc)),
    List.reverse_reverse]

theorem isPySpace_eq_false_of_digit (c : Char) (h : isDigitChar c = true) :
    isPySpace c = false := by
  simp only [isDigitChar, Bool.and_eq_true, decide_eq_true_eq] at h
  simp only [isPySpace, Bool.or_eq_false_iff, decide_eq_false_iff_not]
  omega

theorem digitsRest_of_all (l : List Char)
    (h : ∀ c ∈ l, isDigitChar c = true) : digitsRest l = true := by
  induction l with
  | nil => rfl
  | cons c t ih =>
    have hc := h c (List.mem_cons_self c t)
    have hne : c ≠ '_' := by
      intro he
      rw [he] at hc
      exact absurd hc (by decide)
    rw [digitsRest.eq_def]
    simp only [if_neg hne]
    rw [hc, ih (fun c' hc' => h c' (List.mem_cons_of_mem _ hc'))]
    rfl

theorem digitsOk_of_all (c : Char) (rest : List Char)
    (h : ∀ x ∈ c :: rest, isDigitChar x = true) : digitsOk (c :: rest) = true := by
  simp only [digitsOk]
  rw [h c (List.mem_cons_self c rest),
    digitsRest_of_all rest (fun x hx => h x (List.mem_cons_of_mem _ hx))]
  rfl

theorem pythonInt_of_digits (cs : List Char) (h1 : cs ≠ [])
    (h2 : ∀ c ∈ cs, isDigitChar c = true) :
    pythonInt cs = some (digitsVal cs : Int) := by
  have hstrip : stripChars cs = cs :=
    stripChars_eq_self cs (fun c hc => isPySpace_eq_false_of_digit c (h2 c hc))
  unfold pythonInt
  rw [hstrip]
  cases cs with
  | nil => exact absurd rfl h1
  | cons c rest =>
    have hc := h2 c (List.mem_cons_self c rest)
    have hplus : c ≠ '+' := by
      intro he; rw [he] at hc; exact absurd hc (by decide)
    have hminus : c ≠ '-' := by
      intro he; rw [he] at hc; exact absurd hc (by decide)
    simp [if_neg hplus, if_neg hminus, digitsOk_of_all c rest h2]

theorem firstAfterD_eq_none_of_no_d (l : List String)
    (h : "d" ∉ l.dropLast) : firstAfterD l = none := by
  induction l with
  | nil => rfl
  | cons p rest ih =>
    cases rest with
    | nil => by_cases hp : p = "d" <;> simp [firstAfterD, hp]
    | cons q rest2 =>
      rw [List.dropLast_cons₂, List.mem_cons, not_or] at h
      rw [firstAfterD, if_neg (fun he => h.1 he.symm)]
      exact ih h.2

/-! ### Claims about the watermark reader -/

/-- C7: for every persisted watermark file whose content is the decimal
string of a non-negative integer (a nonempty run of ASCII digits),
`get_last_synced_row` returns exactly that integer (the decimal value of
the digit run). -/
theorem get_last_synced_row_valid_decimal (s : String) (h1 : s.data ≠ [])
    (h2 : ∀ c ∈ s.data, isDigitChar c = true) :
    get_last_synced_row (some s) = (digitsVal s.data : Int) := by
  have hstrip : stripChars s.data = s.data :=
    stripChars_eq_self s.data (fun c hc => isPySpace_eq_false_of_digit c (h2 c hc))
  simp only [get_last_synced_row]
  rw [hstrip, pythonInt_of_digits s.data h1 h2]

/-- Witness for C7 at the concrete file content `"42"`. -/
theorem get_last_synced_row_valid_decimal_witness :
    get_last_synced_row (some "42") = 42 := by
  have h := get_last_synced_row_valid_decimal "42" (by decide) (by decide)
  rw [h]
  decide

/-- C8: when the watermark file is absent `get_last_synced_row` returns 1,
and for every file whose (stripped) content does not parse as a Python
integer it also returns 1; the function is total, so it never raises. -/
theorem get_last_synced_row_default_one :
    get_last_synced_row none = 1 ∧
      ∀ s : String, pythonInt (stripChars s.data) = none →
        get_last_synced_row (some s) = 1 := by
  refine ⟨rfl, fun s h => ?_⟩
  simp only [get_last_synced_row]
  rw [h]

/-- Witness for C8 at the concrete non-integer file content `"abc"`. -/
theorem get_last_synced_row_default_one_witness :
    pythonInt (stripChars "abc".data) = none ∧
      get_last_synced_row (some "abc") = 1 :=
  ⟨by decide, get_last_synced_row_default_one.2 "abc" (by decide)⟩

/-! ### Claims about export resolution -/

/-- C6: for every link URL whose `/`-separated segments contain no segment
`"d"` followed by a further (identifier) segment, `export_file_to_pdf`
returns the no-file result without issuing any export request to the
document service (and, being total, without raising). -/
theorem export_no_file_id_returns_none (drive : Drive) (file_url : String)
    (h : "d" ∉ (splitSlash file_url).dropLast) :
    export_file_to_pdf drive file_url = (none, []) := by
  unfold export_file_to_pdf extractFileId
  rw [firstAfterD_eq_none_of_no_d _ h]

/-- Witness for C6 at a concrete URL with no `/d/<id>` segment, against a
drive service that would return bytes if asked. -/
theorem export_no_file_id_returns_none_witness :
    "d" ∉ (splitSlash "https://docs.google.com/document/XYZ/edit").dropLast ∧
      export_file_to_pdf (fun _ => some [1])
        "https://docs.google.com/document/XYZ/edit" = (none, []) :=
  ⟨by decide, export_no_file_id_returns_none (fun _ => some [1]) _ (by decide)⟩

/-! ### Claims about row processing and record creation -/

/-- C9: the create request issued by `notion_create_entry` is the same
whatever the `file_bytes` and `file_name` arguments are, and its block
children are always empty — exported binary content is never attached, so
the created record is a function of the mapped properties only. -/
theorem create_entry_ignores_file_payload (database_id : String)
    (properties : List (String × PropValue)) (b1 b2 : Option Bytes)
    (n1 n2 : Option String) :
    notion_create_entry database_id properties b1 n1 =
        notion_create_entry database_id properties b2 n2 ∧
      (notion_create_entry database_id properties b1 n1).children = [] :=
  ⟨rfl, rfl⟩

/-- C10: when the fetcher returns no rows, `main` prints
`"No new rows to sync."` and returns early: no create request, no export,
no state-file write at all, and the file content is left unchanged. -/
theorem empty_fetch_early_return (failAt : Nat → Bool) (drive : Drive)
    (database_id : String) (stateFile : Option String) :
    main failAt drive database_id stateFile [] =
      { aborted := false, requests := [], exports := [], writes := [],
        finalFile := stateFile, printed := some "No new rows to sync." } :=
  rfl

/-- C4: a fetched row whose description field is empty (including a row too
short to contain column 1) produces no create request and no export, and
the loop step on it leaves the synced count, the issued requests and the
exports unchanged while still advancing the row counter by one. -/
theorem empty_description_skipped (failAt : Nat → Bool) (drive : Drive)
    (database_id : String) (stateFile : Option String) (row : List String)
    (rest : List (List String)) (current_row : Int) (synced_count : Nat)
    (reqs : List CreateRequest) (exps : List String)
    (h : row.getD 1 "" = "") :
    processRow drive database_id row = (none, []) ∧
      syncLoop failAt drive database_id stateFile (row :: rest) current_row
          synced_count reqs exps =
        syncLoop failAt drive database_id stateFile rest (current_row + 1)
          synced_count reqs exps := by
  have hp : processRow drive database_id row = (none, []) := by
    simp only [processRow]
    rw [if_pos h]
  exact ⟨hp, by simp [syncLoop, hp]⟩

/-- Witness for C4 on the one-cell row `["z"]`. -/
theorem empty_description_skipped_witness :
    (["z"].getD 1 "" = "") ∧
      (processRow (fun _ => none) "db" ["z"] = (none, []) ∧
        syncLoop (fun _ => false) (fun _ => none) "db" (some "5")
            [["z"]] 5 0 [] [] =
          syncLoop (fun _ => false) (fun _ => none) "db" (some "5")
            [] (5 + 1) 0 [] []) :=
  ⟨by decide,
    empty_description_skipped (fun _ => false) (fun _ => none) "db" (some "5")
      ["z"] [] 5 0 [] [] (by decide)⟩

theorem lookup_link_buildProperties (d c r f u : String) :
    List.lookup "Link" (buildProperties d c r f (some u)) =
      some (PropValue.url u) := by
  unfold buildProperties
  by_cases hc : c = "" <;> by_cases hr : r = "" <;> by_cases hf : f = "" <;>
    simp [hc, hr, hf, List.lookup]

/-- C5: for a processed row (non-empty description) with non-empty
`pdf_link`, no export request is issued and the created record's `Link`
property is exactly the `pdf_link` string, whatever the `link` field holds. -/
theorem pdf_link_used_verbatim (drive : Drive) (database_id : String)
    (row : List String) (h1 : row.getD 1 "" ≠ "") (h2 : row.getD 3 "" ≠ "") :
    (processRow drive database_id row).2 = [] ∧
      ((processRow drive database_id row).1.map
          fun r => r.properties.lookup "Link") =
        some (some (PropValue.url (row.getD 3 ""))) := by
  have hp : processRow drive database_id row =
      (some (notion_create_entry database_id
        (buildProperties (row.getD 1 "") (row.getD 4 "") (row.getD 5 "")
          (row.getD 6 "") (some (row.getD 3 ""))) none none), []) := by
    simp only [processRow]
    rw [if_neg h1, if_pos h2]
  rw [hp]
  exact ⟨rfl, by simp [notion_create_entry, lookup_link_buildProperties]⟩

/-- Witness for C5 on a row that has both a link and a pdf link. -/
theorem pdf_link_used_verbatim_witness :
    (["", "A", "http://l", "http://p.pdf"].getD 1 "" ≠ "") ∧
      (["", "A", "http://l", "http://p.pdf"].getD 3 "" ≠ "") ∧
      ((processRow (fun _ => some [1]) "db"
            ["", "A", "http://l", "http://p.pdf"]).2 = [] ∧
        ((processRow (fun _ => some [1]) "db"
              ["", "A", "http://l", "http://p.pdf"]).1.map
            fun r => r.properties.lookup "Link") =
          some (some (PropValue.url
            (["", "A", "http://l", "http://p.pdf"].getD 3 "")))) :=
  ⟨by decide, by decide,
    pdf_link_used_verbatim (fun _ => some [1]) "db"
      ["", "A", "http://l", "http://p.pdf"] (by decide) (by decide)⟩

/-! ### Claims about the whole run -/

theorem syncLoop_aborted_no_write (failAt : Nat → Bool) (drive : Drive)
    (database_id : String) (stateFile : Option String)
    (rows : List (List String)) :
    ∀ (current_row : Int) (synced_count : Nat) (reqs : List CreateRequest)
      (exps : List String),
      (syncLoop failAt drive database_id stateFile rows current_row
          synced_count reqs exps).aborted = true →
        (syncLoop failAt drive database_id stateFile rows current_row
            synced_count reqs exps).writes = [] ∧
          (syncLoop failAt drive database_id stateFile rows current_row
              synced_count reqs exps).finalFile = stateFile := by
  induction rows with
  | nil =>
    intro cr sc reqs exps h
    simp [syncLoop] at h
  | cons row rest ih =>
    intro cr sc reqs exps h
    rcases hpr : processRow drive database_id row with ⟨o, es⟩
    cases o with
    | none =>
      simp only [syncLoop, hpr] at h ⊢
      exact ih _ _ _ _ h
    | some req =>
      by_cases hf : failAt reqs.length = true
      · simp [syncLoop, hpr, hf]
      · simp only [syncLoop, hpr, hf, if_neg, Bool.false_eq_true,
          if_false] at h ⊢
        exact ih _ _ _ _ h

/-- C1: if a create call raises anywhere in the batch (the run aborts), the
watermark file is not written at all during the run and its content stays
at the pre-run value; the watermark write only happens once, after the loop
over the whole batch completes. -/
theorem abort_preserves_watermark (failAt : Nat → Bool) (drive : Drive)
    (database_id : String) (stateFile : Option String)
    (rows : List (List String))
    (h : (main failAt drive database_id stateFile rows).aborted = true) :
    (main failAt drive database_id stateFile rows).writes = [] ∧
      (main failAt drive database_id stateFile rows).finalFile = stateFile := by
  cases rows with
  | nil => simp [main] at h
  | cons row rest =>
    simp only [main, List.isEmpty_cons, Bool.false_eq_true, if_false] at h ⊢
    exact syncLoop_aborted_no_write failAt drive database_id stateFile
      (row :: rest) _ _ _ _ h

/-- Witness for C1: the writer raises on the second record of a 3-row
batch; the run aborts and the state file still holds `"5"`. -/
theorem abort_preserves_watermark_witness :
    (main (fun k => k == 1) (fun _ => none) "db" (some "5")
        [["", "A"], ["", "B"], ["", "C"]]).aborted = true ∧
      ((main (fun k => k == 1) (fun _ => none) "db" (some "5")
          [["", "A"], ["", "B"], ["", "C"]]).writes = [] ∧
        (main (fun k => k == 1) (fun _ => none) "db" (some "5")
            [["", "A"], ["", "B"], ["", "C"]]).finalFile = some "5") :=
  ⟨by decide,
    abort_preserves_watermark (fun k => k == 1) (fun _ => none) "db"
      (some "5") [["", "A"], ["", "B"], ["", "C"]] (by decide)⟩

theorem syncLoop_no_fail (drive : Drive) (database_id : String)
    (stateFile : Option String) (rows : List (List String)) :
    ∀ (current_row : Int) (synced_count : Nat) (reqs : List CreateRequest)
      (exps : List String),
      (syncLoop (fun _ => false) drive database_id stateFile rows current_row
          synced_count reqs exps).aborted = false ∧
        (syncLoop (fun _ => false) drive database_id stateFile rows
            current_row synced_count reqs exps).writes =
          [update_last_synced_row (current_row + (rows.length : Int))] ∧
        (syncLoop (fun _ => false) drive database_id stateFile rows
            current_row synced_count reqs exps).finalFile =
          some (update_last_synced_row (current_row + (rows.length : Int))) := by
  induction rows with
  | nil =>
    intro cr sc reqs exps
    simp [syncLoop]
  | cons row rest ih =>
    intro cr sc reqs exps
    have harith : cr + (((row :: rest).length : Nat) : Int) =
        cr + 1 + ((rest.length : Nat) : Int) := by
      push_cast [List.length_cons]
      ring
    rw [harith]
    rcases hpr : processRow drive database_id row with ⟨o, es⟩
    cases o with
    | none =>
      simp only [syncLoop, hpr]
      exact ih _ _ _ _
    | some req =>
      simp only [syncLoop, hpr, Bool.false_eq_true, if_false]
      exact ih _ _ _ _

/-- C2 counterexample: with watermark file `"5"` and an empty fetched batch
(`n = 0`), the run completes successfully (it prints the no-rows message)
but performs no watermark write at all, in particular not the write of
`w + n = 5` the claim requires for every batch. -/
theorem watermark_write_skipped_on_empty_ce :
    (main (fun _ => false) (fun _ => none) "db" (some "5") []).aborted
        = false ∧
      (main (fun _ => false) (fun _ => none) "db" (some "5") []).printed
        = some "No new rows to sync." ∧
      (main (fun _ => false) (fun _ => none) "db" (some "5") []).writes ≠
        [update_last_synced_row (get_last_synced_row (some "5") +
          ((([] : List (List String)).length : Nat) : Int))] := by
  refine ⟨rfl, rfl, ?_⟩
  decide

/-- C2 as amended: for every starting state file with watermark value `w`
and every non-empty fetched batch of `n` rows, a run whose create calls all
succeed writes exactly `str(w + n)` to the watermark file (one single
write), `w + n ≥ w`; an empty batch performs no write and leaves the file
unchanged. -/
theorem watermark_advances_by_batch_length (drive : Drive)
    (database_id : String) (stateFile : Option String)
    (rows : List (List String)) (h : rows ≠ []) :
    (main (fun _ => false) drive database_id stateFile rows).writes =
        [update_last_synced_row (get_last_synced_row stateFile +
          (rows.length : Int))] ∧
      (main (fun _ => false) drive database_id stateFile rows).finalFile =
        some (update_last_synced_row (get_last_synced_row stateFile +
          (rows.length : Int))) ∧
      get_last_synced_row stateFile ≤
        get_last_synced_row stateFile + (rows.length : Int) := by
  cases rows with
  | nil => exact absurd rfl h
  | cons row rest =>
    simp only [main, List.isEmpty_cons, Bool.false_eq_true, if_false]
    refine ⟨(syncLoop_no_fail drive database_id stateFile (row :: rest)
        _ _ _ _).2.1,
      (syncLoop_no_fail drive database_id stateFile (row :: rest)
        _ _ _ _).2.2, ?_⟩
    have : (0 : Int) ≤ ((row :: rest).length : Int) := Int.natCast_nonneg _
    omega

/-- Witness for C2 (amended) on a 2-row batch (one valid row, one skipped)
starting from watermark 5: the single write is `"7"`. -/
theorem watermark_advances_by_batch_length_witness :
    ([["", "A"], ["", ""]] : List (List String)) ≠ [] ∧
      ((main (fun _ => false) (fun _ => none) "db" (some "5")
            [["", "A"], ["", ""]]).writes =
          [update_last_synced_row (get_last_synced_row (some "5") +
            (([["", "A"], ["", ""]] : List (List String)).length : Int))] ∧
        (main (fun _ => false) (fun _ => none) "db" (some "5")
            [["", "A"], ["", ""]]).finalFile =
          some (update_last_synced_row (get_last_synced_row (some "5") +
            (([["", "A"], ["", ""]] : List (List String)).length : Int))) ∧
        get_last_synced_row (some "5") ≤
          get_last_synced_row (some "5") +
            (([["", "A"], ["", ""]] : List (List String)).length : Int)) :=
  ⟨by decide,
    watermark_advances_by_batch_length (fun _ => none) "db" (some "5")
      [["", "A"], ["", ""]] (by decide)⟩

/-- C3: end-to-end scenario with persisted watermark `"5"` and three
fetched rows at absolute indices 6, 7, 8 — row 6 has description `A` and a
pdf link, row 7 has an empty description, row 8 has description `B` and a
Google-Docs link: exactly two records are created (rows 6 and 8), the
watermark file is written once with `"8"`, and the summary line is
`Synced 2 new records. Last synced row: 8.` — both when the export service
fails and when it returns bytes. -/
theorem end_to_end_scenario :
    (main (fun _ => false) (fun _ => none) "db" (some "5")
        [["", "A", "", "http://x/a.pdf"], ["", ""],
         ["", "B", "https://docs.google.com/document/d/XYZ/edit"]] =
      { aborted := false,
        requests := [
          { database_id := "db",
            properties := [("File Name", PropValue.title "A"),
              ("Link", PropValue.url "http://x/a.pdf")],
            children := [] },
          { database_id := "db",
            properties := [("File Name", PropValue.title "B")],
            children := [] }],
        exports := ["XYZ"],
        writes := ["8"],
        finalFile := some "8",
        printed := some "Synced 2 new records. Last synced row: 8." }) ∧
    (main (fun _ => false) (fun _ => some [37]) "db" (some "5")
        [["", "A", "", "http://x/a.pdf"], ["", ""],
         ["", "B", "https://docs.google.com/document/d/XYZ/edit"]] =
      { aborted := false,
        requests := [
          { database_id := "db",
            properties := [("File Name", PropValue.title "A"),
              ("Link", PropValue.url "http://x/a.pdf")],
            children := [] },
          { database_id := "db",
            properties := [("File Name", PropValue.title "B")],
            children := [] }],
        exports := ["XYZ"],
        writes := ["8"],
        finalFile := some "8",
        printed := some "Synced 2 new records. Last synced row: 8." }) := by
  exact ⟨by decide, by decide⟩

end Sync
